import Mathlib

/-!
Verification of the sAIlor geospatial scoring service
(`sAIlor_webapp/backend/app/main.py`).

The Python code computes with IEEE-754 doubles; here every float-valued
quantity is embedded as an exact rational (`ℚ`).  `math.pi` is the exact
rational value of the double the source uses.  Python's `round` is
round-half-to-even; it is modelled by Mathlib's `round` (round half up),
which agrees with it except at exact half-integers — none of the values
appearing in the claims are half-integers.  Machine integers are `ℤ`.
-/

namespace Sailor

/-- The exact rational value of the IEEE-754 double `math.pi`
(`884279719003555 * 2⁻⁴⁸`) used by the source for area computations. -/
def mathPi : ℚ := 884279719003555 / 281474976710656

/-- Static per-category reference data (`BUSINESS_TYPES` entries in
`main.py`): label, typical budget range in lakh, typical seating range,
OSM tag filter, free-text description. -/
structure BusinessProfile where
  label : String
  typ_budget : ℚ × ℚ
  typ_seating : ℤ × ℤ
  poi_tags : List (String × String)
  description : String
deriving DecidableEq, Repr

/-- The `BUSINESS_TYPES` table of `main.py`, keyed by normalized category. -/
def BUSINESS_TYPES : List (String × BusinessProfile) :=
  [ ("cafe",
      { label := "Cafe", typ_budget := (8, 25), typ_seating := (15, 60),
        poi_tags := [("amenity", "cafe")],
        description := "Coffee shops and casual dining" }),
    ("gym",
      { label := "Gym / Fitness", typ_budget := (30, 120), typ_seating := (0, 0),
        poi_tags := [("leisure", "fitness_centre")],
        description := "Fitness centers and gyms" }),
    ("stationery",
      { label := "Stationery / Print", typ_budget := (3, 12), typ_seating := (0, 0),
        poi_tags := [("shop", "stationery")],
        description := "Office supplies and printing services" }),
    ("hostel_mess",
      { label := "Hostel Mess", typ_budget := (10, 40), typ_seating := (40, 200),
        poi_tags := [("amenity", "restaurant")],
        description := "Student dining facilities" }),
    ("restaurant",
      { label := "Restaurant", typ_budget := (15, 80), typ_seating := (20, 100),
        poi_tags := [("amenity", "restaurant")],
        description := "Full-service restaurants" }),
    ("retail",
      { label := "Retail Store", typ_budget := (5, 30), typ_seating := (0, 0),
        poi_tags := [("shop", "general")],
        description := "General retail stores" }) ]

/-- The profile `BUSINESS_TYPES["cafe"]`, the fixed default for unknown keys. -/
def cafeProfile : BusinessProfile :=
  { label := "Cafe", typ_budget := (8, 25), typ_seating := (15, 60),
    poi_tags := [("amenity", "cafe")],
    description := "Coffee shops and casual dining" }

/-- ASCII whitespace, the characters Python's `str.strip` removes on the
inputs reachable here (Unicode whitespace beyond ASCII is not modelled). -/
def pyWhitespace (c : Char) : Bool :=
  c == ' ' || c == '\t' || c == '\n' || c == '\r' || c == '\x0b' || c == '\x0c'

/-- Python `str.strip` on the character list. -/
def pyStrip (l : List Char) : List Char :=
  ((l.dropWhile pyWhitespace).reverse.dropWhile pyWhitespace).reverse

/-- Python `str.lower` per character (ASCII; the category keys are ASCII). -/
def pyLowerChar (c : Char) : Char :=
  if 65 ≤ c.toNat ∧ c.toNat ≤ 90 then Char.ofNat (c.toNat + 32) else c

/-- `_normalize_business_type`: empty name falls back to `"cafe"`; otherwise
strip, lowercase, and map spaces and hyphens to underscores (the two
single-character `str.replace` calls of the source). -/
def _normalize_business_type (name : String) : String :=
  if name = "" then "cafe"
  else String.mk (((pyStrip name.data).map pyLowerChar).map
    (fun c => if c = ' ' ∨ c = '-' then '_' else c))

/-- `get_business_type_info`: look the normalized key up in `BUSINESS_TYPES`,
defaulting to the `"cafe"` profile. -/
def get_business_type_info (business_type : String) : BusinessProfile :=
  ((BUSINESS_TYPES.lookup (_normalize_business_type business_type)).getD cafeProfile)

/-- `get_poi_tags_for_business_type`: the tag filter of the resolved profile. -/
def get_poi_tags_for_business_type (business_type : String) : List (String × String) :=
  (get_business_type_info business_type).poi_tags

/-- `clamp_score` with the default bounds 0 and 100:
`max(0, min(100, int(round(x))))`.  (The NaN branch of the source returns the
lower bound; NaN is not representable in the exact-rational embedding.) -/
def clamp_score (x : ℚ) : ℤ :=
  max 0 (min 100 (round x))

/-- `validate_coordinates`: returns validity flag and message. -/
def validate_coordinates (lat lon : Option ℚ) : Bool × String :=
  match lat, lon with
  | none, _ => (false, "Latitude and longitude are required")
  | _, none => (false, "Latitude and longitude are required")
  | some la, some lo =>
    if ¬(-90 ≤ la ∧ la ≤ 90) then (false, "Latitude must be between -90 and 90")
    else if ¬(-180 ≤ lo ∧ lo ≤ 180) then (false, "Longitude must be between -180 and 180")
    else (true, "Valid coordinates")

/-- `density_to_score`: map the raw raster mean to a 0..100 score.
`max_val` is the explicitly passed calibration constant (`None` at every call
site of the source), `env_max` models the parsed `POP_MAX_DENSITY` environment
value (`none` when unset or unparsable, in which case 5000 is used); a
non-positive resolved value is likewise replaced by 5000.  An absent density
yields the neutral fallback 60. -/
def density_to_score (mean_density : Option ℚ) (max_val : Option ℚ)
    (env_max : Option ℚ) : ℤ :=
  match mean_density with
  | none => 60
  | some d =>
    let m0 : ℚ := match max_val with
      | some v => v
      | none => env_max.getD 5000
    let m : ℚ := if m0 ≤ 0 then 5000 else m0
    let score : ℤ := round (100 * (d / m))
    clamp_score (score : ℚ)

/-- A parsed point of interest: latitude, longitude, display name, geometry
kind (node/way/relation). -/
structure POI where
  lat : ℚ
  lon : ℚ
  name : String
  type : String
deriving DecidableEq, Repr

/-- `competition_score_from_pois`: POI count density per km² scaled by 15 and
clamped; empty list yields the fixed low score 20; non-positive area yields
the neutral 50. -/
def competition_score_from_pois (pois : List POI) (radius_m : ℤ) : ℤ :=
  if pois.isEmpty then 20
  else
    let area_km2 : ℚ := mathPi * ((radius_m : ℚ) / 1000) ^ 2
    if area_km2 ≤ 0 then 50
    else
      let density : ℚ := (pois.length : ℚ) / area_km2
      let score : ℤ := round (density * 15)
      clamp_score (score : ℚ)

/-- Python `str.split` on a single separator character; an empty string
yields one empty part. -/
def splitOnChar (sep : Char) : List Char → List (List Char)
  | [] => [[]]
  | c :: rest =>
    if c = sep then [] :: splitOnChar sep rest
    else
      match splitOnChar sep rest with
      | [] => [[c]]
      | h :: t => (c :: h) :: t

/-- One decimal digit of Python `int`. -/
def pyDigit? (c : Char) : Option ℕ :=
  if 48 ≤ c.toNat ∧ c.toNat ≤ 57 then some (c.toNat - 48) else none

/-- Decimal value of a non-empty all-digit character list. -/
def digitsVal? (l : List Char) : Option ℕ :=
  if l.isEmpty then none
  else
    l.foldl
      (fun acc c =>
        match acc, pyDigit? c with
        | some n, some d => some (10 * n + d)
        | _, _ => none)
      (some 0)

/-- Python `int()` on a string: optional sign then decimal digits, `none`
on any other input (the source catches the `ValueError`).  CPython also
tolerates surrounding whitespace and digit-group underscores; no reachable
input here uses them. -/
def pyInt? (l : List Char) : Option ℤ :=
  match l with
  | '-' :: rest => (digitsVal? rest).map (fun n => -(n : ℤ))
  | '+' :: rest => (digitsVal? rest).map (fun n => (n : ℤ))
  | _ => (digitsVal? l).map (fun n => (n : ℤ))

/-- The hours-string parse of `calculate_risk_score`: split on `-` into
exactly two parts, take the hour component (text before the first `:`) of
each side, and parse both as integers.  Any failure is `none` (the source
raises and the adjustment is skipped). -/
def parse_hours (hspan : String) : Option (ℤ × ℤ) :=
  match splitOnChar '-' hspan.data with
  | [st, en] =>
    match pyInt? ((splitOnChar ':' st).headD []), pyInt? ((splitOnChar ':' en).headD []) with
    | some sh, some eh => some (sh, eh)
    | _, _ => none
  | _ => none

/-- The open-hours span `(eh - sh) % 24` (Python `%` on ints is `Int.emod`). -/
def hours_open_span (hspan : String) : Option ℤ :=
  (parse_hours hspan).map (fun p => (p.2 - p.1) % 24)

/-- The operating-hours risk adjustment of `calculate_risk_score`: a falsy
(`None` or empty) hours string is replaced by the default `"08:00-22:00"`;
a span ≥ 16 adds 13, a span in [12,16) adds 8, otherwise (including any
parse failure) nothing is added. -/
def hours_adjustment (hours_str : Option String) : ℤ :=
  let hspan : String := match hours_str with
    | none => "08:00-22:00"
    | some s => if s = "" then "08:00-22:00" else s
  match hours_open_span hspan with
  | none => 0
  | some open_h => if open_h ≥ 16 then 13 else if open_h ≥ 12 then 8 else 0

/-- The pre-clamp risk accumulator of `calculate_risk_score`: base 50 plus
the budget, seating, hours, demand and competition adjustments. -/
def risk_raw (business_type : String) (budget_lakh : ℚ) (seating : ℤ)
    (hours_str : Option String) (demand competition : ℤ) : ℤ :=
  let prof := get_business_type_info business_type
  let lo_b := prof.typ_budget.1
  let hi_b := prof.typ_budget.2
  let lo_s := prof.typ_seating.1
  let hi_s := prof.typ_seating.2
  let r1 : ℤ := 50
  let r2 : ℤ := if budget_lakh < lo_b then r1 + 15
    else if budget_lakh > hi_b then r1 - 10 else r1
  let r3 : ℤ := if hi_s > 0 then
      (if seating < lo_s then r2 + 10 else if seating > hi_s then r2 + 5 else r2)
    else r2
  let r4 : ℤ := r3 + hours_adjustment hours_str
  let r5 : ℤ := if demand ≤ 40 then r4 + 10 else r4
  if competition ≥ 70 then r5 + 12 else r5

/-- `calculate_risk_score`: the clamped risk accumulator. -/
def calculate_risk_score (business_type : String) (budget_lakh : ℚ) (seating : ℤ)
    (hours_str : Option String) (demand competition : ℤ) : ℤ :=
  clamp_score ((risk_raw business_type budget_lakh seating hours_str demand competition : ℤ) : ℚ)

/-- Whether `pat` is an initial segment of the second list. -/
def startsWithList : List Char → List Char → Bool
  | [], _ => true
  | _ :: _, [] => false
  | p :: ps, c :: cs => p == c && startsWithList ps cs

/-- Whether `pat` occurs as a contiguous run in the second list. -/
def containsList (pat : List Char) : List Char → Bool
  | [] => pat.isEmpty
  | c :: cs => startsWithList pat (c :: cs) || containsList pat cs

/-- Python substring containment `pat in s`. -/
def strContains (s pat : String) : Bool :=
  containsList pat.data s.data

/-- `generate_insights`: rule-based pros/cons from the three scores, the
normalized category, and the location context.  String literals are copied
verbatim from the source; ordering is insertion order of rule evaluation. -/
def generate_insights (business_type : String) (demand risk competition : ℤ)
    (city : Option String) (radius_m : ℤ) : List String × List String :=
  let pros : List String := []
  let cons : List String := []
  let p1 := if demand ≥ 65 then pros ++ ["Strong local demand near the chosen location."] else pros
  let c1 := if demand ≥ 65 then cons
    else if demand ≥ 45 then cons
    else cons ++ ["Weak customer base; consider moving closer to high-footfall areas."]
  let p1 := if demand ≥ 65 then p1
    else if demand ≥ 45 then p1 ++ ["Moderate demand levels in the area."] else p1
  let p2 := if competition ≤ 35 then p1 ++ ["Low market saturation—clear headroom for growth."]
    else if competition ≤ 60 then p1 ++ ["Moderate competition level allows for market entry."]
    else p1
  let c2 := if competition ≤ 60 then c1
    else c1 ++ ["Heavy competition within the catchment area."]
  let p3 := if risk ≤ 40 then p2 ++ ["Operational risk appears manageable."]
    else if risk ≤ 60 then p2 ++ ["Moderate operational risk with careful planning needed."]
    else p2
  let c3 := if risk ≤ 60 then c2
    else c2 ++ ["High operational risk due to budget, hours, or market conditions."]
  let norm := _normalize_business_type business_type
  let pc : List String × List String :=
    if strContains norm "cafe" then
      let p4 := if competition > 60 then p3
        else p3 ++ ["Cafe format fits well with student/office crowd in this area."]
      let c4 := if competition > 60 then
          c3 ++ ["Many cafés nearby—consider focusing on a niche (breakfast/late-night)."]
        else c3
      let p5 := if demand ≥ 70 then p4 ++ ["High foot traffic area ideal for coffee shops."] else p4
      (p5, c4)
    else if strContains norm "gym" then
      let p4 := if demand ≥ 60 then
          p3 ++ ["Good fitness interest in the area; group classes could work well."] else p3
      let p5 := if competition ≤ 40 then
          p4 ++ ["Low gym density creates opportunity for fitness services."] else p4
      let c4 := if competition ≤ 40 then c3
        else c3 ++ ["Saturated fitness market; differentiate with unique offerings."]
      (p5, c4)
    else if strContains norm "stationery" then
      let p4 := p3 ++ ["Proximity to campus/offices favors stationery and print demand."]
      let p5 := if demand ≥ 50 then
          p4 ++ ["Good potential for office supply and printing services."] else p4
      (p5, c3)
    else if strContains norm "hostel_mess" then
      let p4 := if demand ≥ 55 then
          p3 ++ ["Student density favors mess and meal plan services."] else p3
      let p5 := if competition ≤ 30 then
          p4 ++ ["Low competition in student dining sector."] else p4
      let c4 := if competition ≤ 30 then c3
        else c3 ++ ["High competition in student dining; focus on quality and pricing."]
      (p5, c4)
    else if strContains norm "restaurant" then
      let p4 := if demand ≥ 60 then p3 ++ ["Strong dining demand in the area."] else p3
      let p5 := if competition ≤ 50 then
          p4 ++ ["Moderate restaurant competition allows for market entry."] else p4
      let c4 := if competition ≤ 50 then c3
        else c3 ++ ["High restaurant density; focus on unique cuisine or service."]
      (p5, c4)
    else if strContains norm "retail" then
      let p4 := if demand ≥ 55 then p3 ++ ["Good retail potential in the area."] else p3
      let p5 := if competition ≤ 40 then
          p4 ++ ["Low retail competition creates opportunity."] else p4
      let c4 := if competition ≤ 40 then c3
        else c3 ++ ["Saturated retail market; focus on specific product categories."]
      (p5, c4)
    else (p3, c3)
  let location_context :=
    "Analysis covers " ++ toString radius_m ++ "m radius" ++
      (match city with | some c => " in " ++ c | none => "")
  (pc.1 ++ [location_context ++ "."], pc.2)

/-- `LocationAnalysisRequest`: the request payload fields the core uses. -/
structure AnalysisRequest where
  business_type : String
  city : Option String
  address : Option String
  lat : Option ℚ
  lon : Option ℚ
  radius_m : ℤ
  budget_lakh : ℚ
  seating_capacity : ℤ
  open_hours : Option String
  use_population_density : Bool
  consider_competition : Bool
  notes : Option String

/-- The pydantic `Field` bounds declared on `LocationAnalysisRequest`:
coordinates within physical bounds when present, radius in [100,5000],
budget in [0.1,1000] lakh, seating in [0,1000].  FastAPI rejects a request
violating any of them with a 422 before the handler body runs. -/
def pydantic_valid (req : AnalysisRequest) : Bool :=
  (match req.lat with
    | none => true
    | some l => decide (-90 ≤ l ∧ l ≤ 90)) &&
  (match req.lon with
    | none => true
    | some l => decide (-180 ≤ l ∧ l ≤ 180)) &&
  decide (100 ≤ req.radius_m ∧ req.radius_m ≤ 5000) &&
  decide ((1 / 10 : ℚ) ≤ req.budget_lakh ∧ req.budget_lakh ≤ 1000) &&
  decide (0 ≤ req.seating_capacity ∧ req.seating_capacity ≤ 1000)

/-- The three scores of the response. -/
structure ScoreSet where
  demand : ℤ
  risk : ℤ
  competition : ℤ
deriving DecidableEq, Repr

/-- The `/analyze` response (the presentation-only `summary` string, which
merely interpolates the scores and a formatted density, is omitted; the
`debug` block is inlined as fields). -/
structure AnalyzeResponse where
  pros : List String
  cons : List String
  scores : ScoreSet
  poi_count : ℕ
  mean_density : Option ℚ
  raster_used : Bool
  debug_business_type : String
  debug_radius_m : ℤ
  pois : List POI
deriving DecidableEq, Repr

/-- Step 1 of the handler: the sampled mean density — `density_oracle`
models `mean_density_from_raster`, which returns `None` on every failure;
sampling runs only when the density signal is requested and both
coordinates are present. -/
def analyze_mean_density (density_oracle : ℚ → ℚ → ℤ → Option ℚ)
    (req : AnalysisRequest) : Option ℚ :=
  if req.use_population_density then
    match req.lat, req.lon with
    | some la, some lo => density_oracle la lo req.radius_m
    | _, _ => none
  else none

/-- Step 2 of the handler: the competition score together with the fetched
POI list — the neutral baseline 45 unless the competition signal is
requested and both coordinates are present, in which case the POI fetch runs
(an exception in that step yields the safe fallback 55 and leaves the POI
list empty). -/
def analyze_competition
    (poi_oracle : ℚ → ℚ → ℤ → List (String × String) → Except String (List POI))
    (req : AnalysisRequest) : ℤ × List POI :=
  if req.consider_competition then
    match req.lat, req.lon with
    | some la, some lo =>
      match poi_oracle la lo req.radius_m (get_poi_tags_for_business_type req.business_type) with
      | Except.ok ps => (competition_score_from_pois ps req.radius_m, ps)
      | Except.error _ => (55, [])
    | _, _ => (45, [])
  else (45, [])

/-- The body of `analyze_location` after coordinate validation: sample
density, resolve competition, compute risk, generate insights, and assemble
the response with its diagnostics block and capped POI list.  It is a total
function — the handler body never fails. -/
def analyze_core (density_oracle : ℚ → ℚ → ℤ → Option ℚ)
    (poi_oracle : ℚ → ℚ → ℤ → List (String × String) → Except String (List POI))
    (env_max : Option ℚ) (req : AnalysisRequest) : AnalyzeResponse :=
  let mean_density : Option ℚ := analyze_mean_density density_oracle req
  let demand_score := density_to_score mean_density none env_max
  let comp : ℤ × List POI := analyze_competition poi_oracle req
  let competition_score := comp.1
  let pois := comp.2
  let risk_score := calculate_risk_score req.business_type req.budget_lakh
    req.seating_capacity req.open_hours demand_score competition_score
  let pc := generate_insights req.business_type demand_score risk_score
    competition_score req.city req.radius_m
  { pros := pc.1, cons := pc.2,
    scores := { demand := demand_score, risk := risk_score, competition := competition_score },
    poi_count := pois.length,
    mean_density := mean_density,
    raster_used := mean_density.isSome,
    debug_business_type := req.business_type,
    debug_radius_m := req.radius_m,
    pois := pois.take 50 }

/-- The `/analyze` endpoint: pydantic field validation (a 422 client error on
violation), then the handler's explicit coordinate validation when both
coordinates are present (a 400 client error), then the scoring body, which
never fails. -/
def analyze_location (density_oracle : ℚ → ℚ → ℤ → Option ℚ)
    (poi_oracle : ℚ → ℚ → ℤ → List (String × String) → Except String (List POI))
    (env_max : Option ℚ) (req : AnalysisRequest) :
    Except (ℤ × String) AnalyzeResponse :=
  if pydantic_valid req = false then Except.error (422, "request validation error")
  else
    match req.lat, req.lon with
    | some la, some lo =>
      if (validate_coordinates (some la) (some lo)).1 = false then
        Except.error (400, (validate_coordinates (some la) (some lo)).2)
      else Except.ok (analyze_core density_oracle poi_oracle env_max req)
    | _, _ => Except.ok (analyze_core density_oracle poi_oracle env_max req)

/-- A POI cache key: coordinates rounded to 5 decimals, radius, and the tag
filter sorted by tag key (`json.dumps(..., sort_keys=True)`).  The source
feeds this data through an md5 digest to name the cache file; the key is
modelled by the digested data itself. -/
def CacheKey : Type := ℚ × ℚ × ℤ × List (String × String)
deriving DecidableEq

/-- Rounding to 5 decimal places (the `f"{x:.5f}"` formatting of the key). -/
def round5 (q : ℚ) : ℚ := ((round (q * 100000) : ℤ) : ℚ) / 100000

/-- `_poi_cache_key`. -/
def _poi_cache_key (lat lon : ℚ) (r : ℤ) (tags : List (String × String)) : CacheKey :=
  (round5 lat, round5 lon, r, tags.insertionSort (fun a b => a.1 ≤ b.1))

/-- An on-disk cache entry: file modification time and the deserialized
content (`none` models a corrupt/unreadable file). -/
structure CacheEntry where
  mtime : ℚ
  content : Option (List POI)

/-- Result of one `fetch_pois_overpass` call: the returned POI list, the
cache state afterwards, and how many live network calls were made. -/
structure FetchOutcome where
  result : List POI
  cache : CacheKey → Option CacheEntry
  network_calls : ℕ

/-- `fetch_pois_overpass` with the external effects explicit: `requests_ok`
is the `REQUESTS_OK` import flag, `now` the current time in seconds,
`network` the live Overpass outcome (`none` = request failure/timeout, which
the source catches and turns into an empty result, written to no cache),
`write_ok` whether the cache-file write succeeds (a failed write is logged
and swallowed), and `cache` the cache state keyed by `_poi_cache_key`.
A fresh (< 3600 s old) deserializable entry is returned with no network
call; a stale, missing, or corrupt entry falls through to the live query;
every successful live fetch (even an empty one) is written back. -/
def fetch_pois_overpass (requests_ok : Bool) (now : ℚ)
    (network : Option (List POI)) (write_ok : Bool)
    (cache : CacheKey → Option CacheEntry)
    (lat lon : ℚ) (radius_m : ℤ) (tags : List (String × String)) : FetchOutcome :=
  if requests_ok = false then ⟨[], cache, 0⟩
  else
    let key := _poi_cache_key lat lon radius_m tags
    let live : FetchOutcome :=
      match network with
      | none => ⟨[], cache, 1⟩
      | some pois =>
        ⟨pois,
         (if write_ok then
            fun k => if k = key then some ⟨now, some pois⟩ else cache k
          else cache),
         1⟩
    match cache key with
    | some entry =>
      if now - entry.mtime < 3600 then
        match entry.content with
        | some pois => ⟨pois, cache, 0⟩
        | none => live
      else live
    | none => live

/-! ### Concrete fixtures used to instantiate the theorems -/

/-- A density oracle that always fails soft (raster unavailable). -/
def noDensityOracle : ℚ → ℚ → ℤ → Option ℚ := fun _ _ _ => none

/-- A POI oracle returning an empty result. -/
def emptyPoiOracle : ℚ → ℚ → ℤ → List (String × String) → Except String (List POI) :=
  fun _ _ _ _ => Except.ok []

/-- A request with both optional signals switched off. -/
def reqNoSignals : AnalysisRequest :=
  { business_type := "cafe", city := none, address := none,
    lat := some 19, lon := some 73, radius_m := 500, budget_lakh := 10,
    seating_capacity := 20, open_hours := some "08:00-22:00",
    use_population_density := false, consider_competition := false,
    notes := none }

/-- A request whose latitude 95 is outside the physical bounds. -/
def reqBadLat : AnalysisRequest :=
  { business_type := "cafe", city := none, address := none,
    lat := some 95, lon := some 70, radius_m := 500, budget_lakh := 10,
    seating_capacity := 20, open_hours := some "08:00-22:00",
    use_population_density := true, consider_competition := true,
    notes := none }

/-- A fully valid request with both signals requested. -/
def reqValid : AnalysisRequest :=
  { business_type := "cafe", city := some "Mumbai", address := none,
    lat := some 19, lon := some 73, radius_m := 500, budget_lakh := 10,
    seating_capacity := 20, open_hours := some "08:00-22:00",
    use_population_density := true, consider_competition := true,
    notes := none }

/-! ### Helper lemmas -/

theorem round_mono_rat {x y : ℚ} (h : x ≤ y) : round x ≤ round y := by
  rw [round_eq, round_eq]
  exact Int.floor_mono (by linarith)

theorem clamp_score_nonneg (x : ℚ) : 0 ≤ clamp_score x :=
  le_max_left 0 _

theorem clamp_score_le_100 (x : ℚ) : clamp_score x ≤ 100 := by
  unfold clamp_score
  exact max_le (by norm_num) (min_le_left _ _)

theorem clamp_score_mono {x y : ℚ} (h : x ≤ y) : clamp_score x ≤ clamp_score y := by
  unfold clamp_score
  exact max_le_max le_rfl (min_le_min le_rfl (round_mono_rat h))

theorem clamp_score_intCast (n : ℤ) : clamp_score ((n : ℤ) : ℚ) = max 0 (min 100 n) := by
  unfold clamp_score
  rw [round_intCast]

theorem clamp_score_intCast_of_bounds {n : ℤ} (h0 : 0 ≤ n) (h1 : n ≤ 100) :
    clamp_score ((n : ℤ) : ℚ) = n := by
  rw [clamp_score_intCast, min_eq_right h1, max_eq_right h0]

theorem mathPi_pos : 0 < mathPi := by norm_num [mathPi]

/-! ### Claims -/

/-- C5: `calculate_risk_score` is deterministic — two calls with identical
category, budget, seating, hours string, demand and competition inputs yield
identical outputs — and its output is always an integer in [0,100]. -/
theorem c5_risk_deterministic_and_bounded (business_type : String) (budget_lakh : ℚ)
    (seating : ℤ) (hours_str : Option String) (demand competition : ℤ) :
    calculate_risk_score business_type budget_lakh seating hours_str demand competition =
      calculate_risk_score business_type budget_lakh seating hours_str demand competition ∧
    0 ≤ calculate_risk_score business_type budget_lakh seating hours_str demand competition ∧
    calculate_risk_score business_type budget_lakh seating hours_str demand competition ≤ 100 :=
  ⟨rfl, clamp_score_nonneg _, clamp_score_le_100 _⟩

/-- C6: for density `d ≥ 0` and an explicitly supplied calibration constant
`M > 0`, `density_to_score` equals `round (100 * d / M)` clamped to [0,100];
it is monotonically non-decreasing in `d` and equals 100 once `d ≥ M`. -/
theorem c6_density_to_score_formula (d M : ℚ) (env_max : Option ℚ)
    (hd : 0 ≤ d) (hM : 0 < M) :
    density_to_score (some d) (some M) env_max = max 0 (min 100 (round (100 * (d / M)))) ∧
    (∀ d', d ≤ d' →
      density_to_score (some d) (some M) env_max ≤
        density_to_score (some d') (some M) env_max) ∧
    (M ≤ d → density_to_score (some d) (some M) env_max = 100) := by
  have hMne : ¬(M ≤ 0) := not_le.mpr hM
  have hform : ∀ x : ℚ, density_to_score (some x) (some M) env_max =
      max 0 (min 100 (round (100 * (x / M)))) := by
    intro x
    show clamp_score ((round (100 * (x / (if M ≤ 0 then (5000 : ℚ) else M))) : ℤ) : ℚ) = _
    rw [if_neg hMne, clamp_score_intCast]
  refine ⟨hform d, ?_, ?_⟩
  · intro d' hdd'
    rw [hform d, hform d']
    refine max_le_max le_rfl (min_le_min le_rfl (round_mono_rat ?_))
    have : d / M ≤ d' / M := div_le_div_of_nonneg_right hdd' hM.le
    linarith
  · intro hMd
    rw [hform d]
    have h1 : (1 : ℚ) ≤ d / M := (one_le_div hM).mpr hMd
    have h100 : (100 : ℚ) ≤ 100 * (d / M) := by linarith
    have hr : (100 : ℤ) ≤ round (100 * (d / M)) := by
      have := round_mono_rat h100
      rwa [show ((100 : ℚ)) = ((100 : ℤ) : ℚ) by norm_num, round_intCast] at this
    rw [min_eq_left hr]
    norm_num

/-- C6 witness: at `d = 7000`, `M = 5000` the score saturates at 100. -/
theorem c6_density_to_score_formula_witness :
    (0 : ℚ) ≤ 7000 ∧ (0 : ℚ) < 5000 ∧ (5000 : ℚ) ≤ 7000 ∧
    density_to_score (some 7000) (some 5000) none = 100 :=
  ⟨by norm_num, by norm_num, by norm_num,
    (c6_density_to_score_formula 7000 5000 none (by norm_num) (by norm_num)).2.2 (by norm_num)⟩

/-- C8: category lookup is case- and format-insensitive — `"Hostel Mess"`,
`"hostel_mess"` and `"hostel-mess"` resolve to the same `BusinessProfile` —
and any name whose normalized form is absent from the table resolves to the
fixed default (cafe) profile. -/
theorem c8_category_lookup_insensitive :
    (get_business_type_info "Hostel Mess" = get_business_type_info "hostel_mess" ∧
     get_business_type_info "hostel-mess" = get_business_type_info "hostel_mess" ∧
     _normalize_business_type "Hostel Mess" = "hostel_mess" ∧
     _normalize_business_type "hostel-mess" = "hostel_mess") ∧
    (∀ name : String,
      BUSINESS_TYPES.lookup (_normalize_business_type name) = none →
      get_business_type_info name = cafeProfile) := by
  refine ⟨by decide, ?_⟩
  intro name h
  unfold get_business_type_info
  rw [h]
  rfl

/-- C8 witness: the unknown key `"bakery"` resolves to the cafe profile. -/
theorem c8_category_lookup_insensitive_witness :
    BUSINESS_TYPES.lookup (_normalize_business_type "bakery") = none ∧
    get_business_type_info "bakery" = cafeProfile :=
  ⟨by decide, c8_category_lookup_insensitive.2 "bakery" (by decide)⟩

/-- C1 counterexample: at radius 500 the empty POI list scores 20 while a
one-element list scores only round(60/π) = 19, so the score is not
monotonically non-decreasing in the POI count starting from n = 0. -/
theorem c1_counterexample :
    competition_score_from_pois [] 500 = 20 ∧
    competition_score_from_pois [⟨0, 0, "Unnamed", "node"⟩] 500 = 19 ∧
    ¬(competition_score_from_pois [] 500 ≤
        competition_score_from_pois [⟨0, 0, "Unnamed", "node"⟩] 500) := by
  have e1 : competition_score_from_pois [] 500 = 20 := by
    unfold competition_score_from_pois
    norm_num
  have e2 : competition_score_from_pois [⟨0, 0, "Unnamed", "node"⟩] 500 = 19 := by
    unfold competition_score_from_pois
    norm_num [mathPi, clamp_score, round_eq, Int.floor_eq_iff]
  exact ⟨e1, e2, by rw [e1, e2]; decide⟩

/-- C1 amended: for every radius r > 0 the empty sequence scores exactly 20,
every non-empty sequence scores round((n / (π·(r/1000)²))·15) clamped to
[0,100], and the score is monotonically non-decreasing in n on the
non-empty sequences (n ≥ 1); monotonicity does not extend across the empty
case, where the fixed 20 can exceed the score of a small non-empty list. -/
theorem c1_amended (r : ℤ) (hr : 0 < r) :
    competition_score_from_pois [] r = 20 ∧
    (∀ pois : List POI, pois ≠ [] →
      competition_score_from_pois pois r =
        max 0 (min 100 (round ((pois.length : ℚ) / (mathPi * ((r : ℚ) / 1000) ^ 2) * 15)))) ∧
    (∀ pois pois' : List POI, pois ≠ [] → pois.length ≤ pois'.length →
      competition_score_from_pois pois r ≤ competition_score_from_pois pois' r) := by
  have hrq : (0 : ℚ) < (r : ℚ) := by exact_mod_cast hr
  have harea : 0 < mathPi * ((r : ℚ) / 1000) ^ 2 := by
    have h2 : (0 : ℚ) < ((r : ℚ) / 1000) ^ 2 := by positivity
    exact mul_pos mathPi_pos h2
  have hform : ∀ pois : List POI, pois ≠ [] →
      competition_score_from_pois pois r =
        max 0 (min 100 (round ((pois.length : ℚ) / (mathPi * ((r : ℚ) / 1000) ^ 2) * 15))) := by
    intro pois hne
    match pois, hne with
    | a :: l, _ =>
      have h1 : competition_score_from_pois (a :: l) r =
          (if mathPi * ((r : ℚ) / 1000) ^ 2 ≤ 0 then 50
           else clamp_score
             ((round (((a :: l).length : ℚ) / (mathPi * ((r : ℚ) / 1000) ^ 2) * 15) : ℤ) : ℚ)) := rfl
      rw [h1, if_neg (not_le.mpr harea), clamp_score_intCast]
  refine ⟨rfl, hform, ?_⟩
  intro pois pois' hne hlen
  have hpos : 0 < pois.length := List.length_pos.mpr hne
  have hne' : pois' ≠ [] := List.length_pos.mp (lt_of_lt_of_le hpos hlen)
  rw [hform pois hne, hform pois' hne']
  refine max_le_max le_rfl (min_le_min le_rfl (round_mono_rat ?_))
  have hcast : (pois.length : ℚ) ≤ (pois'.length : ℚ) := by exact_mod_cast hlen
  have hdiv : (pois.length : ℚ) / (mathPi * ((r : ℚ) / 1000) ^ 2) ≤
      (pois'.length : ℚ) / (mathPi * ((r : ℚ) / 1000) ^ 2) :=
    div_le_div_of_nonneg_right hcast harea.le
  nlinarith [hdiv]

/-- C1 amended witness: at r = 500, the empty list scores 20 and a
one-element list scores no more than a two-element list. -/
theorem c1_amended_witness :
    (0 : ℤ) < 500 ∧
    competition_score_from_pois [] 500 = 20 ∧
    competition_score_from_pois [⟨0, 0, "A", "node"⟩] 500 ≤
      competition_score_from_pois [⟨0, 0, "A", "node"⟩, ⟨1, 1, "B", "way"⟩] 500 :=
  ⟨by decide, (c1_amended 500 (by decide)).1,
    (c1_amended 500 (by decide)).2.2 [⟨0, 0, "A", "node"⟩]
      [⟨0, 0, "A", "node"⟩, ⟨1, 1, "B", "way"⟩] (by simp) (by simp)⟩

/-- C2: for every successfully parsed hours string the adjustment is +13
when the span (end hour − start hour) mod 24 is ≥ 16, +8 when it is in
[12,16), and 0 otherwise; concretely "08:00-22:00" has span 14 and adds +8,
and the overnight "22:00-08:00" has span 10 and adds nothing. -/
theorem c2_hours_span_adjustment :
    (∀ (s : String) (sh eh : ℤ), parse_hours s = some (sh, eh) →
      hours_adjustment (some s) =
        (if 16 ≤ (eh - sh) % 24 then 13 else if 12 ≤ (eh - sh) % 24 then 8 else 0)) ∧
    hours_open_span "08:00-22:00" = some 14 ∧
    hours_adjustment (some "08:00-22:00") = 8 ∧
    hours_open_span "22:00-08:00" = some 10 ∧
    hours_adjustment (some "22:00-08:00") = 0 := by
  refine ⟨?_, by decide, by decide, by decide, by decide⟩
  intro s sh eh h
  have hs : s ≠ "" := by
    intro he
    subst he
    rw [show parse_hours "" = none from rfl] at h
    cases h
  show (match hours_open_span (if s = "" then "08:00-22:00" else s) with
        | none => 0
        | some open_h => if open_h ≥ 16 then 13 else if open_h ≥ 12 then 8 else 0 : ℤ) = _
  rw [if_neg hs, show hours_open_span s = some ((eh - sh) % 24) from by
    unfold hours_open_span; rw [h]; rfl]

/-- C2 witness: "07:00-23:30" parses to hours (7, 23), span 16, and the
adjustment matches the span rule (here +13). -/
theorem c2_hours_span_adjustment_witness :
    parse_hours "07:00-23:30" = some (7, 23) ∧
    hours_adjustment (some "07:00-23:30") =
      (if 16 ≤ ((23 : ℤ) - 7) % 24 then 13 else if 12 ≤ ((23 : ℤ) - 7) % 24 then 8 else 0) :=
  ⟨by decide, c2_hours_span_adjustment.1 "07:00-23:30" 7 23 (by decide)⟩

/-- C10 counterexample: with budget, seating, demand and competition
penalties all firing, the hours-absent risk saturates at the clamp (100)
while the short-span risk stays at 97, so the two differ by 3, not 8. -/
theorem c10_counterexample :
    calculate_risk_score "cafe" 1 5 none 30 80 = 100 ∧
    calculate_risk_score "cafe" 1 5 (some "09:00-17:00") 30 80 = 97 ∧
    calculate_risk_score "cafe" 1 5 none 30 80 -
        calculate_risk_score "cafe" 1 5 (some "09:00-17:00") 30 80 ≠ 8 := by
  have e1 : calculate_risk_score "cafe" 1 5 none 30 80 = 100 := by
    unfold calculate_risk_score
    rw [clamp_score_intCast]
    decide
  have e2 : calculate_risk_score "cafe" 1 5 (some "09:00-17:00") 30 80 = 97 := by
    unfold calculate_risk_score
    rw [clamp_score_intCast]
    decide
  exact ⟨e1, e2, by rw [e1, e2]; decide⟩

/-- C10 amended: a None or empty hours string is replaced by the default
"08:00-22:00", whose 14-hour span adds +8; two otherwise-identical requests
with hours absent versus a short span differ by exactly 8 in the pre-clamp
accumulator, and hence by 8 in the final risk whenever neither value is
clamped (both within [0,100]); at the clamp boundary the gap shrinks. -/
theorem c10_amended :
    (hours_adjustment none = 8 ∧ hours_adjustment (some "") = 8 ∧
     hours_open_span "08:00-22:00" = some 14) ∧
    ∀ (bt : String) (budget : ℚ) (seating demand competition : ℤ),
      risk_raw bt budget seating none demand competition =
        risk_raw bt budget seating (some "09:00-17:00") demand competition + 8 ∧
      (0 ≤ risk_raw bt budget seating (some "09:00-17:00") demand competition →
       risk_raw bt budget seating none demand competition ≤ 100 →
       calculate_risk_score bt budget seating none demand competition =
         calculate_risk_score bt budget seating (some "09:00-17:00") demand competition + 8) := by
  refine ⟨⟨by decide, by decide, by decide⟩, ?_⟩
  intro bt budget seating demand competition
  have hn : hours_adjustment none = 8 := by decide
  have hsh : hours_adjustment (some "09:00-17:00") = 0 := by decide
  have key : risk_raw bt budget seating none demand competition =
      risk_raw bt budget seating (some "09:00-17:00") demand competition + 8 := by
    simp only [risk_raw, hn, hsh]
    split_ifs <;> omega
  refine ⟨key, fun h0 h100 => ?_⟩
  have h100' : risk_raw bt budget seating (some "09:00-17:00") demand competition + 8 ≤ 100 := by
    rw [← key]; exact h100
  unfold calculate_risk_score
  rw [clamp_score_intCast, clamp_score_intCast, key]
  omega

/-- C10 amended witness: for a request with no other penalty firing, the
hours-absent risk is exactly 8 above the short-span risk. -/
theorem c10_amended_witness :
    (0 : ℤ) ≤ risk_raw "cafe" 10 20 (some "09:00-17:00") 50 50 ∧
    risk_raw "cafe" 10 20 none 50 50 ≤ 100 ∧
    calculate_risk_score "cafe" 10 20 none 50 50 =
      calculate_risk_score "cafe" 10 20 (some "09:00-17:00") 50 50 + 8 :=
  ⟨by decide, by decide,
    (c10_amended.2 "cafe" 10 20 50 50).2 (by decide) (by decide)⟩

/-- A successful `analyze_location` response is exactly the `analyze_core`
value for the request. -/
theorem analyze_ok_eq (dOr : ℚ → ℚ → ℤ → Option ℚ)
    (pOr : ℚ → ℚ → ℤ → List (String × String) → Except String (List POI))
    (env : Option ℚ) (req : AnalysisRequest) (resp : AnalyzeResponse)
    (h : analyze_location dOr pOr env req = Except.ok resp) :
    resp = analyze_core dOr pOr env req := by
  unfold analyze_location at h
  split at h
  · cases h
  · split at h
    · split at h
      · cases h
      · cases h
        rfl
    · cases h
      rfl

/-- The demand score of a successful response is
`density_to_score` of the sampled mean density. -/
theorem analyze_core_demand (dOr : ℚ → ℚ → ℤ → Option ℚ)
    (pOr : ℚ → ℚ → ℤ → List (String × String) → Except String (List POI))
    (env : Option ℚ) (req : AnalysisRequest) :
    (analyze_core dOr pOr env req).scores.demand =
      density_to_score (analyze_mean_density dOr req) none env := rfl

/-- The competition score of a response is the first component of the
competition step. -/
theorem analyze_core_competition (dOr : ℚ → ℚ → ℤ → Option ℚ)
    (pOr : ℚ → ℚ → ℤ → List (String × String) → Except String (List POI))
    (env : Option ℚ) (req : AnalysisRequest) :
    (analyze_core dOr pOr env req).scores.competition =
      (analyze_competition pOr req).1 := rfl

/-- The risk score of a response is `calculate_risk_score` applied to the
request fields and the two computed scores. -/
theorem analyze_core_risk (dOr : ℚ → ℚ → ℤ → Option ℚ)
    (pOr : ℚ → ℚ → ℤ → List (String × String) → Except String (List POI))
    (env : Option ℚ) (req : AnalysisRequest) :
    (analyze_core dOr pOr env req).scores.risk =
      calculate_risk_score req.business_type req.budget_lakh req.seating_capacity
        req.open_hours (density_to_score (analyze_mean_density dOr req) none env)
        (analyze_competition pOr req).1 := rfl

/-- The pros of a response come from `generate_insights` on the three
scores. -/
theorem analyze_core_pros (dOr : ℚ → ℚ → ℤ → Option ℚ)
    (pOr : ℚ → ℚ → ℤ → List (String × String) → Except String (List POI))
    (env : Option ℚ) (req : AnalysisRequest) :
    (analyze_core dOr pOr env req).pros =
      (generate_insights req.business_type
        (density_to_score (analyze_mean_density dOr req) none env)
        (calculate_risk_score req.business_type req.budget_lakh req.seating_capacity
          req.open_hours (density_to_score (analyze_mean_density dOr req) none env)
          (analyze_competition pOr req).1)
        (analyze_competition pOr req).1 req.city req.radius_m).1 := rfl

/-- The cons of a response come from `generate_insights` on the three
scores. -/
theorem analyze_core_cons (dOr : ℚ → ℚ → ℤ → Option ℚ)
    (pOr : ℚ → ℚ → ℤ → List (String × String) → Except String (List POI))
    (env : Option ℚ) (req : AnalysisRequest) :
    (analyze_core dOr pOr env req).cons =
      (generate_insights req.business_type
        (density_to_score (analyze_mean_density dOr req) none env)
        (calculate_risk_score req.business_type req.budget_lakh req.seating_capacity
          req.open_hours (density_to_score (analyze_mean_density dOr req) none env)
          (analyze_competition pOr req).1)
        (analyze_competition pOr req).1 req.city req.radius_m).2 := rfl

/-- The POI count of a response is the length of the fetched list. -/
theorem analyze_core_poi_count (dOr : ℚ → ℚ → ℤ → Option ℚ)
    (pOr : ℚ → ℚ → ℤ → List (String × String) → Except String (List POI))
    (env : Option ℚ) (req : AnalysisRequest) :
    (analyze_core dOr pOr env req).poi_count =
      (analyze_competition pOr req).2.length := rfl

/-- C7: `density_to_score` on an absent density is always the neutral 60,
and in `analyze` the demand score is 60 whenever the density signal is not
requested, a coordinate is absent, or density sampling fails. -/
theorem c7_neutral_demand_score :
    (∀ (max_val env_max : Option ℚ), density_to_score none max_val env_max = 60) ∧
    (∀ (dOr : ℚ → ℚ → ℤ → Option ℚ)
       (pOr : ℚ → ℚ → ℤ → List (String × String) → Except String (List POI))
       (env : Option ℚ) (req : AnalysisRequest) (resp : AnalyzeResponse),
      (req.use_population_density = false ∨ req.lat = none ∨ req.lon = none ∨
        (∃ la lo, req.lat = some la ∧ req.lon = some lo ∧ dOr la lo req.radius_m = none)) →
      analyze_location dOr pOr env req = Except.ok resp →
      resp.scores.demand = 60) := by
  refine ⟨fun _ _ => rfl, ?_⟩
  intro dOr pOr env req resp h hok
  rw [analyze_ok_eq dOr pOr env req resp hok, analyze_core_demand]
  unfold analyze_mean_density
  rcases h with h | h | h | ⟨la, lo, hla, hlo, hd⟩
  · rw [h]
    rfl
  · rw [h]
    rcases req.use_population_density with _ | _ <;> rfl
  · rw [h]
    rcases req.use_population_density with _ | _ <;>
      rcases req.lat with _ | _ <;> rfl
  · rw [hla, hlo]
    rcases hu : req.use_population_density with _ | _
    · rfl
    · rw [if_pos rfl]
      show density_to_score (dOr la lo req.radius_m) none env = 60
      rw [hd]
      rfl

/-- C7 witness: a request with the density signal switched off gets demand
score 60. -/
theorem c7_neutral_demand_score_witness :
    reqNoSignals.use_population_density = false ∧
    (analyze_core noDensityOracle emptyPoiOracle none reqNoSignals).scores.demand = 60 :=
  ⟨rfl,
    c7_neutral_demand_score.2 noDensityOracle emptyPoiOracle none reqNoSignals
      (analyze_core noDensityOracle emptyPoiOracle none reqNoSignals)
      (Or.inl rfl)
      (by
        rw [analyze_location,
          show pydantic_valid reqNoSignals = true from by norm_num [pydantic_valid, reqNoSignals]]
        rfl)⟩

/-- C9: when the competition signal is not requested or a coordinate is
absent, the competition score is the constant 45 — it feeds the risk
computation, the insight generation, and the response scores, and the POI
count of the response is 0.  45 is distinct from the documented fallbacks
20 (empty POI list), 50 (non-positive area) and 55 (exception during the
competition step). -/
theorem c9_competition_baseline_45 :
    ∀ (dOr : ℚ → ℚ → ℤ → Option ℚ)
      (pOr : ℚ → ℚ → ℤ → List (String × String) → Except String (List POI))
      (env : Option ℚ) (req : AnalysisRequest) (resp : AnalyzeResponse),
      (req.consider_competition = false ∨ req.lat = none ∨ req.lon = none) →
      analyze_location dOr pOr env req = Except.ok resp →
      resp.scores.competition = 45 ∧
      resp.scores.risk = calculate_risk_score req.business_type req.budget_lakh
        req.seating_capacity req.open_hours resp.scores.demand 45 ∧
      resp.pros = (generate_insights req.business_type resp.scores.demand
        resp.scores.risk 45 req.city req.radius_m).1 ∧
      resp.cons = (generate_insights req.business_type resp.scores.demand
        resp.scores.risk 45 req.city req.radius_m).2 ∧
      resp.poi_count = 0 ∧
      ((45 : ℤ) ≠ 20 ∧ (45 : ℤ) ≠ 50 ∧ (45 : ℤ) ≠ 55) := by
  intro dOr pOr env req resp h hok
  have hcomp : analyze_competition pOr req = (45, []) := by
    unfold analyze_competition
    rcases h with h | h | h
    · rw [h]
      rfl
    · rw [h]
      rcases req.consider_competition with _ | _ <;> rfl
    · rw [h]
      rcases req.consider_competition with _ | _ <;>
        rcases req.lat with _ | _ <;> rfl
  rw [analyze_ok_eq dOr pOr env req resp hok]
  refine ⟨?_, ?_, ?_, ?_, ?_, by decide, by decide, by decide⟩
  · rw [analyze_core_competition, hcomp]
  · rw [analyze_core_risk, analyze_core_demand, hcomp]
  · rw [analyze_core_pros, analyze_core_demand, analyze_core_risk, hcomp]
  · rw [analyze_core_cons, analyze_core_demand, analyze_core_risk, hcomp]
  · rw [analyze_core_poi_count, hcomp]
    rfl

/-- C9 witness: a request with the competition signal switched off gets
competition score 45. -/
theorem c9_competition_baseline_45_witness :
    reqNoSignals.consider_competition = false ∧
    (analyze_core noDensityOracle emptyPoiOracle none reqNoSignals).scores.competition = 45 :=
  ⟨rfl,
    (c9_competition_baseline_45 noDensityOracle emptyPoiOracle none reqNoSignals
      (analyze_core noDensityOracle emptyPoiOracle none reqNoSignals)
      (Or.inl rfl)
      (by
        rw [analyze_location,
          show pydantic_valid reqNoSignals = true from by norm_num [pydantic_valid, reqNoSignals]]
        rfl)).1⟩

/-- C3: a request whose provided latitude or longitude lies outside the
physical bounds is rejected with a client-side validation error,
independently of the density/POI oracles (so before any network or raster
access); a request satisfying the declared field bounds (coordinates valid
or absent) always succeeds — the handler body is total and never raises. -/
theorem c3_coordinate_validation :
    (∀ (dOr dOr' : ℚ → ℚ → ℤ → Option ℚ)
       (pOr pOr' : ℚ → ℚ → ℤ → List (String × String) → Except String (List POI))
       (env env' : Option ℚ) (req : AnalysisRequest),
      ((∃ l, req.lat = some l ∧ ¬(-90 ≤ l ∧ l ≤ 90)) ∨
       (∃ l, req.lon = some l ∧ ¬(-180 ≤ l ∧ l ≤ 180))) →
      analyze_location dOr pOr env req = Except.error (422, "request validation error") ∧
      analyze_location dOr pOr env req = analyze_location dOr' pOr' env' req) ∧
    (∀ (dOr : ℚ → ℚ → ℤ → Option ℚ)
       (pOr : ℚ → ℚ → ℤ → List (String × String) → Except String (List POI))
       (env : Option ℚ) (req : AnalysisRequest),
      pydantic_valid req = true →
      analyze_location dOr pOr env req = Except.ok (analyze_core dOr pOr env req)) := by
  constructor
  · intro dOr dOr' pOr pOr' env env' req h
    have hf : pydantic_valid req = false := by
      rcases h with ⟨l, hl, hb⟩ | ⟨l, hl, hb⟩ <;>
        simp [pydantic_valid, hl, decide_eq_false hb]
    have he : ∀ (d : ℚ → ℚ → ℤ → Option ℚ)
        (p : ℚ → ℚ → ℤ → List (String × String) → Except String (List POI))
        (e : Option ℚ),
        analyze_location d p e req = Except.error (422, "request validation error") := by
      intro d p e
      unfold analyze_location
      rw [hf]
      rfl
    exact ⟨he dOr pOr env, by rw [he dOr pOr env, he dOr' pOr' env']⟩
  · intro dOr pOr env req hpv
    unfold analyze_location
    rw [hpv]
    rcases hla : req.lat with _ | la
    · rfl
    · rcases hlo : req.lon with _ | lo
      · rfl
      · have hbounds : (-90 ≤ la ∧ la ≤ 90) ∧ (-180 ≤ lo ∧ lo ≤ 180) := by
          rw [pydantic_valid, hla, hlo] at hpv
          simp only [Bool.and_eq_true, decide_eq_true_eq] at hpv
          exact ⟨hpv.1.1.1.1, hpv.1.1.1.2⟩
        have hv : (validate_coordinates (some la) (some lo)).1 = true := by
          show (if ¬(-90 ≤ la ∧ la ≤ 90) then
              ((false, "Latitude must be between -90 and 90") : Bool × String)
            else if ¬(-180 ≤ lo ∧ lo ≤ 180) then
              (false, "Longitude must be between -180 and 180")
            else (true, "Valid coordinates")).1 = true
          rw [if_neg (not_not_intro hbounds.1), if_neg (not_not_intro hbounds.2)]
        show (if (validate_coordinates (some la) (some lo)).1 = false then
            Except.error (400, (validate_coordinates (some la) (some lo)).2)
          else Except.ok (analyze_core dOr pOr env req)) =
            Except.ok (analyze_core dOr pOr env req)
        rw [if_neg (show ¬((validate_coordinates (some la) (some lo)).1 = false) from by
          rw [hv]; simp)]

/-- C3 witness: latitude 95 is rejected with the validation error, and the
valid request succeeds. -/
theorem c3_coordinate_validation_witness :
    (∃ l, reqBadLat.lat = some l ∧ ¬(-90 ≤ l ∧ l ≤ 90)) ∧
    analyze_location noDensityOracle emptyPoiOracle none reqBadLat =
      Except.error (422, "request validation error") ∧
    pydantic_valid reqValid = true ∧
    analyze_location noDensityOracle emptyPoiOracle none reqValid =
      Except.ok (analyze_core noDensityOracle emptyPoiOracle none reqValid) :=
  ⟨⟨95, rfl, by norm_num⟩,
    (c3_coordinate_validation.1 noDensityOracle noDensityOracle emptyPoiOracle emptyPoiOracle
      none none reqBadLat (Or.inl ⟨95, rfl, by norm_num⟩)).1,
    by norm_num [pydantic_valid, reqValid],
    c3_coordinate_validation.2 noDensityOracle emptyPoiOracle none reqValid
      (by norm_num [pydantic_valid, reqValid])⟩

/-- C4: with the requests library available, (1) a fresh (< 1 h) and
deserializable cache entry is returned as-is with no live network call and
an unchanged cache; (2) a missing, stale, or corrupt entry triggers exactly
one live query; (3) after a successful live fetch (zero results included)
with a succeeding write, the result is stored under the key with the
current time; and (4) fetching the same (lat, lon, radius, tags) twice
within the TTL window issues exactly one live network call in total and
both calls return the same list. -/
theorem c4_cache_ttl_roundtrip (now : ℚ) (network : Option (List POI)) (write_ok : Bool)
    (cache : CacheKey → Option CacheEntry) (lat lon : ℚ) (radius_m : ℤ)
    (tags : List (String × String)) :
    (∀ (e : CacheEntry) (pois : List POI),
      cache (_poi_cache_key lat lon radius_m tags) = some e →
      now - e.mtime < 3600 → e.content = some pois →
      fetch_pois_overpass true now network write_ok cache lat lon radius_m tags =
        ⟨pois, cache, 0⟩) ∧
    ((cache (_poi_cache_key lat lon radius_m tags) = none ∨
      (∃ e, cache (_poi_cache_key lat lon radius_m tags) = some e ∧
        ¬(now - e.mtime < 3600)) ∨
      (∃ e, cache (_poi_cache_key lat lon radius_m tags) = some e ∧ e.content = none)) →
      (fetch_pois_overpass true now network write_ok cache lat lon radius_m tags).network_calls
        = 1) ∧
    (∀ pois : List POI, network = some pois → write_ok = true →
      (cache (_poi_cache_key lat lon radius_m tags) = none ∨
       (∃ e, cache (_poi_cache_key lat lon radius_m tags) = some e ∧
         ¬(now - e.mtime < 3600)) ∨
       (∃ e, cache (_poi_cache_key lat lon radius_m tags) = some e ∧ e.content = none)) →
      (fetch_pois_overpass true now network write_ok cache lat lon radius_m tags).cache
        (_poi_cache_key lat lon radius_m tags) = some ⟨now, some pois⟩) ∧
    (∀ (pois : List POI) (later : ℚ) (network2 : Option (List POI)) (write_ok2 : Bool),
      network = some pois → write_ok = true →
      cache (_poi_cache_key lat lon radius_m tags) = none →
      0 ≤ later - now → later - now < 3600 →
      (fetch_pois_overpass true now network write_ok cache lat lon radius_m tags).network_calls +
        (fetch_pois_overpass true later network2 write_ok2
          (fetch_pois_overpass true now network write_ok cache lat lon radius_m tags).cache
          lat lon radius_m tags).network_calls = 1 ∧
      (fetch_pois_overpass true later network2 write_ok2
          (fetch_pois_overpass true now network write_ok cache lat lon radius_m tags).cache
          lat lon radius_m tags).result =
        (fetch_pois_overpass true now network write_ok cache lat lon radius_m tags).result) := by
  have hlive : ∀ (n : ℚ) (net : Option (List POI)) (wok : Bool)
      (c : CacheKey → Option CacheEntry),
      c (_poi_cache_key lat lon radius_m tags) = none →
      fetch_pois_overpass true n net wok c lat lon radius_m tags =
        (match net with
         | none => ⟨[], c, 1⟩
         | some pois =>
           ⟨pois,
            (if wok then
              fun k => if k = _poi_cache_key lat lon radius_m tags then
                some ⟨n, some pois⟩ else c k
             else c),
            1⟩) := by
    intro n net wok c hc
    simp only [fetch_pois_overpass]
    rw [if_neg (by simp), hc]
  have hhit : ∀ (n : ℚ) (net : Option (List POI)) (wok : Bool)
      (c : CacheKey → Option CacheEntry) (e : CacheEntry) (ps : List POI),
      c (_poi_cache_key lat lon radius_m tags) = some e →
      n - e.mtime < 3600 → e.content = some ps →
      fetch_pois_overpass true n net wok c lat lon radius_m tags = ⟨ps, c, 0⟩ := by
    intro n net wok c e ps hc hf hcont
    simp only [fetch_pois_overpass]
    rw [if_neg (by simp)]
    simp only [hc]
    rw [if_pos hf]
    simp only [hcont]
  refine ⟨?_, ?_, ?_, ?_⟩
  · intro e pois hc hf hcont
    exact hhit now network write_ok cache e pois hc hf hcont
  · intro h
    rcases h with hc | ⟨e, hc, hstale⟩ | ⟨e, hc, hcorrupt⟩
    · rw [hlive now network write_ok cache hc]
      rcases network with _ | pois <;> rfl
    · simp only [fetch_pois_overpass]
      rw [if_neg (by simp)]
      simp only [hc]
      rw [if_neg hstale]
      rcases network with _ | pois <;> rfl
    · simp only [fetch_pois_overpass]
      rw [if_neg (by simp)]
      simp only [hc, hcorrupt]
      by_cases hf : now - e.mtime < 3600
      · rw [if_pos hf]
        rcases network with _ | pois <;> rfl
      · rw [if_neg hf]
        rcases network with _ | pois <;> rfl
  · intro pois hnet hwok h
    subst hnet
    subst hwok
    rcases h with hc | ⟨e, hc, hstale⟩ | ⟨e, hc, hcorrupt⟩
    · rw [hlive now (some pois) true cache hc]
      simp
    · simp only [fetch_pois_overpass]
      rw [if_neg (by simp)]
      simp only [hc]
      rw [if_neg hstale]
      simp
    · simp only [fetch_pois_overpass]
      rw [if_neg (by simp)]
      simp only [hc, hcorrupt]
      by_cases hf : now - e.mtime < 3600
      · rw [if_pos hf]
        simp
      · rw [if_neg hf]
        simp
  · intro pois later network2 write_ok2 hnet hwok hc _hord httl
    subst hnet
    subst hwok
    have h1 : fetch_pois_overpass true now (some pois) true cache lat lon radius_m tags =
        ⟨pois,
         fun k => if k = _poi_cache_key lat lon radius_m tags then
           some ⟨now, some pois⟩ else cache k,
         1⟩ := by
      rw [hlive now (some pois) true cache hc]
      simp
    have h2 : (fun k => if k = _poi_cache_key lat lon radius_m tags then
          some (⟨now, some pois⟩ : CacheEntry) else cache k)
        (_poi_cache_key lat lon radius_m tags) = some ⟨now, some pois⟩ := by simp
    have h3 : fetch_pois_overpass true later network2 write_ok2
        (fun k => if k = _poi_cache_key lat lon radius_m tags then
          some ⟨now, some pois⟩ else cache k) lat lon radius_m tags =
        ⟨pois, fun k => if k = _poi_cache_key lat lon radius_m tags then
          some ⟨now, some pois⟩ else cache k, 0⟩ :=
      hhit later network2 write_ok2 _ ⟨now, some pois⟩ pois h2 httl rfl
    rw [h1, h3]
    exact ⟨rfl, rfl⟩

/-- C4 witness: on an empty cache with a successful empty fetch, two
lookups 1000 s apart make exactly one network call. -/
theorem c4_cache_ttl_roundtrip_witness :
    (0 : ℚ) ≤ 1000 - 0 ∧ (1000 : ℚ) - 0 < 3600 ∧
    (fetch_pois_overpass true 0 (some []) true (fun _ => none) 19 73 500
        [("amenity", "cafe")]).network_calls +
      (fetch_pois_overpass true 1000 (some []) true
        (fetch_pois_overpass true 0 (some []) true (fun _ => none) 19 73 500
          [("amenity", "cafe")]).cache 19 73 500 [("amenity", "cafe")]).network_calls = 1 :=
  ⟨by norm_num, by norm_num,
    ((c4_cache_ttl_roundtrip 0 (some []) true (fun _ => none) 19 73 500
        [("amenity", "cafe")]).2.2.2 [] 1000 (some []) true rfl rfl rfl
      (by norm_num) (by norm_num)).1⟩

end Sailor
